import Mathlib

/-!
Shallow embedding of the Precision Agriculture ML backend
(`Precision-agriculture-backend/app.py`).

Numeric values are modelled by `ℚ`.  The trained scikit-learn regressors and
the fitted `StandardScaler` are opaque functions on feature vectors, so the
model container carries them as fields of type `List ℚ → ℚ` resp.
`List ℚ → List ℚ`; everything the backend does *around* them (weighted
averaging, rounding, clamping, defaults, sampling, rule evaluation) is
translated from the source.

Python's built-in `round(x, n)` rounds to `n` decimal places with ties going
to the nearest even digit; `roundHalfEven`/`pyRound` reproduce that on `ℚ`.
-/

/-- Round-half-to-even to the nearest integer, as Python's `round` does. -/
def roundHalfEven (x : ℚ) : ℤ :=
  if x - ⌊x⌋ < 1/2 then ⌊x⌋
  else if 1/2 < x - ⌊x⌋ then ⌊x⌋ + 1
  else if ⌊x⌋ % 2 = 0 then ⌊x⌋ else ⌊x⌋ + 1

/-- Python's `round(x, ndigits)` on rationals. -/
def pyRound (ndigits : Nat) (x : ℚ) : ℚ :=
  (roundHalfEven (x * 10 ^ ndigits) : ℚ) / 10 ^ ndigits

/-- `np.average(values, weights)`: the weighted sum divided by the weight sum. -/
def npAverage (values weights : List ℚ) : ℚ :=
  (List.zipWith (· * ·) values weights).sum / weights.sum

/-- `np.mean` of a non-empty list (the empty case is handled at use sites,
where NumPy would produce `NaN`). -/
def npMean (l : List ℚ) : ℚ := l.sum / l.length

/-- One row of `performance_metrics` in `WeatherMLModels.__init__`. -/
structure PerfMetric where
  mae : ℚ
  rmse : ℚ
  accuracy : ℚ
deriving DecidableEq

/-- The static `performance_metrics` dict: five known keys, anything else is
absent (`KeyError` in Python, `none` here). -/
def performance_metrics (key : String) : Option PerfMetric :=
  if key = "temperature" then some ⟨12/10, 18/10, 945/10⟩
  else if key = "humidity" then some ⟨35/10, 42/10, 928/10⟩
  else if key = "rainfall" then some ⟨21/10, 3, 912/10⟩
  else if key = "airQuality" then some ⟨52/10, 68/10, 895/10⟩
  else if key = "ensemble" then some ⟨18/10, 24/10, 958/10⟩
  else none

/-- `models['temp_ensemble']`: three opaque trained regressors plus the
ensemble weights list (source value `[0.2, 0.4, 0.4]`). -/
structure TempEnsemble where
  lr : List ℚ → ℚ
  rf : List ℚ → ℚ
  gb : List ℚ → ℚ
  weights : List ℚ

/-- The `WeatherMLModels` container after initialization: the fitted feature
scaler and the trained models, as opaque functions. -/
structure WeatherMLModels where
  scaler_features : List ℚ → List ℚ
  temp_ensemble : TempEnsemble
  humidity : List ℚ → ℚ
  rainfall : List ℚ → ℚ
  aqi : List ℚ → ℚ

/-- Result of `predict_temperature`: `{'temp': ..., 'confidence': ...}`. -/
structure TempResult where
  temp : ℚ
  confidence : ℚ
deriving DecidableEq

/-- `WeatherMLModels.predict_temperature`: scale the features, collect the
three regressors' outputs, take the weighted average under
`ensemble['weights']`, round to 2 decimals, and attach the static
`performance_metrics['ensemble']['accuracy']` as confidence.  The lookup key
is the literal `"ensemble"`, always present, so `getD 0` is never taken. -/
def predict_temperature (m : WeatherMLModels) (features : List ℚ) : TempResult :=
  let X := m.scaler_features features
  let predictions := [m.temp_ensemble.lr X, m.temp_ensemble.rf X, m.temp_ensemble.gb X]
  let final_prediction := npAverage predictions m.temp_ensemble.weights
  { temp := pyRound 2 final_prediction,
    confidence := ((performance_metrics "ensemble").map PerfMetric.accuracy).getD 0 }

/-- Result of `predict_all`: the per-target prediction bundle. -/
structure PredAll where
  temperature : TempResult
  humidity : ℚ
  rainfall : ℚ
  aqi : ℚ
deriving DecidableEq

/-- `WeatherMLModels.predict_all`: the ensemble temperature plus the three
single-regressor targets; rainfall is `max(0, round(..., 2))`. -/
def predict_all (m : WeatherMLModels) (features : List ℚ) : PredAll :=
  let X := m.scaler_features features
  { temperature := predict_temperature m features,
    humidity := pyRound 2 (m.humidity X),
    rainfall := max 0 (pyRound 2 (m.rainfall X)),
    aqi := pyRound 2 (m.aqi X) }

/-- The `main` block of an OpenWeatherMap current-weather payload; each field
may be absent (`dict.get` with a default in the source). -/
structure MainBlock where
  temp : Option ℚ
  humidity : Option ℚ
  pressure : Option ℚ
deriving DecidableEq

/-- The `wind` block of a current-weather payload. -/
structure WindBlock where
  speed : Option ℚ
deriving DecidableEq

/-- The `current_weather` object handed to `/api/predict`. -/
structure CurrentWeather where
  main : MainBlock
  wind : WindBlock
deriving DecidableEq

/-- Feature extraction in `predict_weather`: defaults 28 / 75 / 1013 / 3 for
missing fields, wind speed converted from m/s to km/h by `* 3.6`. -/
def extract_features (cw : CurrentWeather) : List ℚ :=
  [cw.main.temp.getD 28,
   cw.main.humidity.getD 75,
   cw.main.pressure.getD 1013,
   cw.wind.speed.getD 3 * (18/5)]

/-- One entry of `forecast['list']`.  The source indexes
`item['main']['temp']` etc. without defaults, so the fields are required. -/
structure ForecastItem where
  temp : ℚ
  humidity : ℚ
  pressure : ℚ
  wind_speed : ℚ
deriving DecidableEq

/-- The feature vector built from one forecast entry in `predict_weather`. -/
def forecast_features (it : ForecastItem) : List ℚ :=
  [it.temp, it.humidity, it.pressure, it.wind_speed * (18/5)]

/-- The indices visited by `range(0, min(56, len(forecast_list)), 8)`. -/
def sampled_indices (n : Nat) : List Nat :=
  (List.range (min 56 n)).filter (fun i => i % 8 = 0)

/-- The `forecast_predictions` loop of `predict_weather`: run `predict_all`
on every sampled entry of the forecast list.  Every sampled index is in
bounds, so the `List.get?` never yields `none`. -/
def forecast_predictions (m : WeatherMLModels) (l : List ForecastItem) : List PredAll :=
  (sampled_indices l.length).filterMap
    (fun i => (l.get? i).map (fun it => predict_all m (forecast_features it)))

/-- One risk alert produced by `assess_risks`. -/
structure Risk where
  typ : String
  severity : String
  message : String
  recommendation : String
deriving DecidableEq

/-- The heat-stress alert. -/
def heat_stress_risk : Risk :=
  ⟨"heat_stress", "high", "Extreme heat predicted - crop stress likely",
   "Increase irrigation, apply mulch, consider shade structures"⟩

/-- The drought alert. -/
def drought_risk : Risk :=
  ⟨"drought", "medium", "Low rainfall predicted for coming week",
   "Plan irrigation schedule and ensure water availability"⟩

/-- The air-quality alert. -/
def air_quality_risk : Risk :=
  ⟨"air_quality", "medium", "Poor air quality detected",
   "Monitor crop health for pollution stress symptoms"⟩

/-- The drought condition of `assess_risks`: `np.mean` of the per-forecast
rainfall values compared with 2.  On an empty list `np.mean` returns IEEE-754
`NaN`, and `NaN < 2` evaluates to `False` in Python, so the empty case is
`false` here. -/
def drought_condition (forecast_predictions : List PredAll) : Bool :=
  match forecast_predictions with
  | [] => false
  | l => decide (npMean (l.map PredAll.rainfall) < 2)

/-- `assess_risks`: heat stress, drought and air-quality rules, evaluated in
that order.  `current_features[3] if len(current_features) > 3 else 50` is
exactly `List.getD current_features 3 50`. -/
def assess_risks (temp_prediction : TempResult) (current_features : List ℚ)
    (forecast_predictions : List PredAll) : List Risk :=
  (if temp_prediction.temp > 35 then [heat_stress_risk] else []) ++
  (if drought_condition forecast_predictions then [drought_risk] else []) ++
  (if current_features.getD 3 50 > 100 then [air_quality_risk] else [])

/-- One crop's environmental requirements (the `crop_requirements` rows). -/
structure CropReq where
  temp_lo : ℚ
  temp_hi : ℚ
  humidity_lo : ℚ
  humidity_hi : ℚ
  rainfall_lo : ℚ
  rainfall_hi : ℚ
deriving DecidableEq

/-- `crop_requirements['rice']`. -/
def rice_req : CropReq := ⟨20, 35, 70, 90, 1500, 2000⟩

/-- `crop_requirements['wheat']`. -/
def wheat_req : CropReq := ⟨12, 25, 50, 70, 500, 750⟩

/-- `crop_requirements['cotton']`. -/
def cotton_req : CropReq := ⟨21, 30, 60, 80, 600, 1200⟩

/-- The static `crop_requirements` table as a keyed lookup. -/
def crop_requirements (crop_type : String) : Option CropReq :=
  if crop_type = "rice" then some rice_req
  else if crop_type = "wheat" then some wheat_req
  else if crop_type = "cotton" then some cotton_req
  else none

/-- One recommendation entry.  The interpolated number of the f-string
message (current temp or humidity) is carried in `value`. -/
structure Recommendation where
  typ : String
  parameter : String
  message : String
  value : Option ℚ
  action : String
deriving DecidableEq

/-- The temperature branch of the recommendation generator. -/
def temp_recommendation (current_temp : ℚ) (requirements : CropReq) : Recommendation :=
  if current_temp < requirements.temp_lo then
    ⟨"warning", "temperature", "is below optimal range", some current_temp,
     "Consider protective measures like mulching or row covers"⟩
  else if current_temp > requirements.temp_hi then
    ⟨"critical", "temperature", "is above optimal range", some current_temp,
     "Increase irrigation frequency and consider shade netting"⟩
  else
    ⟨"success", "temperature", "Temperature is within optimal range", none,
     "Continue normal operations"⟩

/-- The humidity branch of the recommendation generator. -/
def humidity_recommendation (current_humidity : ℚ) (requirements : CropReq) : Recommendation :=
  if current_humidity < requirements.humidity_lo then
    ⟨"warning", "humidity", "is low", some current_humidity,
     "Increase irrigation frequency"⟩
  else if current_humidity > requirements.humidity_hi then
    ⟨"warning", "humidity", "is high", some current_humidity,
     "Monitor for fungal diseases and ensure proper ventilation"⟩
  else
    ⟨"success", "humidity", "Humidity levels are optimal", none,
     "Maintain current irrigation schedule"⟩

/-- `calculate_compatibility_score`: per-parameter score is 100 inside the
range, otherwise `max(0, 100 - |value - mean(range)| * penalty)` with
penalty 10 for temperature and 5 for humidity; result is the rounded average
of the two. -/
def calculate_compatibility_score (temp humidity : ℚ) (requirements : CropReq) : ℚ :=
  let temp_score :=
    if requirements.temp_lo ≤ temp ∧ temp ≤ requirements.temp_hi then 100
    else max 0 (100 - |temp - npMean [requirements.temp_lo, requirements.temp_hi]| * 10)
  let humidity_score :=
    if requirements.humidity_lo ≤ humidity ∧ humidity ≤ requirements.humidity_hi then 100
    else max 0 (100 - |humidity - npMean [requirements.humidity_lo, requirements.humidity_hi]| * 5)
  pyRound 1 ((temp_score + humidity_score) / 2)

/-- The body of `get_crop_recommendations` relevant to the advisory result:
resolve the crop (unknown keys fall back to rice), default the weather
snapshot to 28 °C / 75 %, build the two recommendations and the score. -/
def get_crop_recommendations (crop_type : String)
    (weather_temp weather_humidity : Option ℚ) : List Recommendation × ℚ :=
  let requirements := (crop_requirements crop_type).getD rice_req
  let current_temp := weather_temp.getD 28
  let current_humidity := weather_humidity.getD 75
  ([temp_recommendation current_temp requirements,
    humidity_recommendation current_humidity requirements],
   calculate_compatibility_score current_temp current_humidity requirements)

/-- State of the mutable `WeatherMLModels` container as seen by `/api/retrain`:
which artifact generation each slot currently holds.  Generation numbers are
abstract identifiers; the run being modelled installs a fresh generation `g`. -/
structure StoreState where
  scaler_features : Nat
  temp_ensemble : Nat
  humidity : Nat
  rainfall : Nat
  aqi : Nat
deriving DecidableEq

/-- `WeatherMLModels.train_models` as a sequence of in-place assignments to
the live container, each preceded by a fallible step (data generation, the
`fit` calls, `save_models`).  `failAt = some k` means the `k`-th fallible
step raises; the returned flag is `true` on success, and the returned state
is the container as the exception (or the successful return) leaves it.
Assignment order follows the source: `scalers['features']` is replaced
before `fit_transform` runs; the temperature regressors are fitted before
`models['temp_ensemble']` is assigned; then humidity, rainfall, aqi. -/
def train_models (g : Nat) (s : StoreState) (failAt : Option Nat) : StoreState × Bool :=
  if failAt = some 0 then (s, false) else           -- create_training_data raises
  let s1 := { s with scaler_features := g }         -- scalers['features'] = StandardScaler()
  if failAt = some 1 then (s1, false) else          -- fit_transform raises
  if failAt = some 2 then (s1, false) else          -- a temperature fit raises
  let s2 := { s1 with temp_ensemble := g }          -- models['temp_ensemble'] = {...}
  if failAt = some 3 then (s2, false) else          -- humidity fit raises
  let s3 := { s2 with humidity := g }               -- models['humidity'] = ...
  if failAt = some 4 then (s3, false) else          -- rainfall fit raises
  let s4 := { s3 with rainfall := g }               -- models['rainfall'] = ...
  if failAt = some 5 then (s4, false) else          -- aqi fit raises
  let s5 := { s4 with aqi := g }                    -- models['aqi'] = ...
  if failAt = some 6 then (s5, false) else          -- save_models raises
  (s5, true)

/-- The `/api/retrain` endpoint: it calls `ml_models.train_models()` on the
shared container and catches any exception, leaving the container in
whatever state the call reached. -/
def retrain_models (g : Nat) (s : StoreState) (failAt : Option Nat) : StoreState × Bool :=
  train_models g s failAt

/-! ## Helper lemmas -/

theorem roundHalfEven_nonneg (y : ℚ) (hy : 0 ≤ y) : 0 ≤ roundHalfEven y := by
  have hf : 0 ≤ ⌊y⌋ := Int.floor_nonneg.mpr hy
  unfold roundHalfEven
  split_ifs <;> omega

theorem roundHalfEven_le (y : ℚ) (m : ℤ) (h : y ≤ m) : roundHalfEven y ≤ m := by
  have hf : ⌊y⌋ ≤ m := by
    have h1 := Int.floor_le_floor h
    simpa using h1
  have hceil : ¬(y - ⌊y⌋ < 1/2) → ⌊y⌋ + 1 ≤ m := by
    intro h1
    have h2 : (⌊y⌋ : ℚ) + 1/2 ≤ y := by linarith
    have h3 : (⌊y⌋ : ℚ) < (m : ℚ) := by linarith
    have h4 : ⌊y⌋ < m := by exact_mod_cast h3
    omega
  unfold roundHalfEven
  split_ifs with h1 h2 h3
  · exact hf
  · exact hceil h1
  · exact hf
  · exact hceil h1

theorem pyRound_nonneg (n : Nat) (x : ℚ) (hx : 0 ≤ x) : 0 ≤ pyRound n x := by
  unfold pyRound
  have h1 : 0 ≤ roundHalfEven (x * 10 ^ n) := roundHalfEven_nonneg _ (by positivity)
  have h2 : (0 : ℚ) ≤ (roundHalfEven (x * 10 ^ n) : ℚ) := by exact_mod_cast h1
  positivity

theorem pyRound_one_le_hundred (x : ℚ) (hx : x ≤ 100) : pyRound 1 x ≤ 100 := by
  unfold pyRound
  have h1 : roundHalfEven (x * 10 ^ 1) ≤ (1000 : ℤ) := by
    apply roundHalfEven_le
    push_cast
    linarith
  have h2 : (roundHalfEven (x * 10 ^ 1) : ℚ) ≤ 1000 := by exact_mod_cast h1
  rw [div_le_iff₀ (by norm_num)]
  have h3 : (100 : ℚ) * 10 ^ 1 = 1000 := by norm_num
  rw [h3]
  exact h2

theorem range_filter_mod8 : ∀ m < 57,
    (List.range m).filter (fun i => i % 8 = 0) =
      (List.range ((m + 7) / 8)).map (fun j => 8 * j) := by decide

theorem sampled_indices_eq (n : Nat) :
    sampled_indices n = (List.range (min 7 ((n + 7) / 8))).map (fun j => 8 * j) := by
  have h1 := range_filter_mod8 (min 56 n) (by omega)
  have h2 : (min 56 n + 7) / 8 = min 7 ((n + 7) / 8) := by omega
  rw [sampled_indices, h1, h2]

theorem filterMap_get_length {α β : Type} (l : List α) (f : α → β) (g : Nat → Nat) :
    ∀ js : List Nat, (∀ j ∈ js, g j < l.length) →
      ((js.map g).filterMap (fun i => (l.get? i).map f)).length = js.length := by
  intro js
  induction js with
  | nil => simp
  | cons a as ih =>
    intro h
    have ha : g a < l.length := h a (List.mem_cons_self a as)
    have hsome : l.get? (g a) = some (l.get ⟨g a, ha⟩) := List.get?_eq_get ha
    simp only [List.map_cons, List.filterMap_cons, hsome, Option.map_some', List.length_cons]
    rw [ih (fun j hj => h j (List.mem_cons_of_mem a hj))]

/-! ## Claim theorems -/

/-- C1: for temperature, `predict_temperature` returns the weighted average
of the linear, forest and boosted regressors' outputs under weights
`[0.2, 0.4, 0.4]`; whenever the per-role predictions are `[10, 20, 30]` the
returned value is `22.0`, and the confidence is the static
`performance_metrics['ensemble']['accuracy']` (95.8), independent of the
predictions. -/
theorem C1_temperature_ensemble (m : WeatherMLModels) (features : List ℚ)
    (hw : m.temp_ensemble.weights = [1/5, 2/5, 2/5])
    (hlr : m.temp_ensemble.lr (m.scaler_features features) = 10)
    (hrf : m.temp_ensemble.rf (m.scaler_features features) = 20)
    (hgb : m.temp_ensemble.gb (m.scaler_features features) = 30) :
    (predict_temperature m features).temp = 22 ∧
    (predict_temperature m features).confidence =
      ((performance_metrics "ensemble").map PerfMetric.accuracy).getD 0 ∧
    (predict_temperature m features).confidence = 958/10 := by
  refine ⟨?_, rfl, ?_⟩
  · simp only [predict_temperature, hw, hlr, hrf, hgb]
    norm_num [npAverage, pyRound, roundHalfEven]
  · show ((performance_metrics "ensemble").map PerfMetric.accuracy).getD 0 = 958/10
    simp [performance_metrics]

/-- A concrete model container whose temperature regressors output 10, 20
and 30 on every input, used to witness `C1_temperature_ensemble`. -/
def const_ensemble_models : WeatherMLModels :=
  { scaler_features := id,
    temp_ensemble := ⟨fun _ => 10, fun _ => 20, fun _ => 30, [1/5, 2/5, 2/5]⟩,
    humidity := fun _ => 0,
    rainfall := fun _ => 0,
    aqi := fun _ => 0 }

/-- Witness for C1 at a concrete model container and feature vector. -/
theorem C1_witness :
    (predict_temperature const_ensemble_models [28, 75, 1013, 54/5]).temp = 22 ∧
    (predict_temperature const_ensemble_models [28, 75, 1013, 54/5]).confidence =
      ((performance_metrics "ensemble").map PerfMetric.accuracy).getD 0 ∧
    (predict_temperature const_ensemble_models [28, 75, 1013, 54/5]).confidence = 958/10 :=
  C1_temperature_ensemble const_ensemble_models [28, 75, 1013, 54/5] rfl rfl rfl rfl

/-- C2: the claim says a failed retraining leaves the previously active
store unchanged.  The code instead retrains by assigning into the live
container slot by slot, so an exception raised mid-way (here: the humidity
model's `fit`, failure point 3) leaves a partially replaced store: the
scaler and the temperature ensemble already hold the new generation 1 while
humidity, rainfall and aqi still hold generation 0. -/
theorem C2_retrain_partial_mutation :
    retrain_models 1 ⟨0, 0, 0, 0, 0⟩ (some 3) = (⟨1, 1, 0, 0, 0⟩, false) ∧
    (⟨1, 1, 0, 0, 0⟩ : StoreState) ≠ ⟨0, 0, 0, 0, 0⟩ := by decide

/-- C3: with predicted temperature 36, an empty forecast series and current
feature slot 4 equal to 50, `assess_risks` returns exactly the heat-stress
alert with severity high; the drought rule does not fire on an empty
forecast series. -/
theorem C3_heat_stress_only (confidence f0 f1 f2 : ℚ) :
    assess_risks ⟨36, confidence⟩ [f0, f1, f2, 50] [] = [heat_stress_risk] ∧
    heat_stress_risk.typ = "heat_stress" ∧ heat_stress_risk.severity = "high" := by
  refine ⟨?_, rfl, rfl⟩
  simp only [assess_risks, drought_condition, List.getD]
  norm_num

/-- C4: the rainfall value in the bundle returned by `predict_all` is
clamped to 0 from below, hence never negative, for every model container and
input feature vector. -/
theorem C4_rainfall_nonneg (m : WeatherMLModels) (features : List ℚ) :
    0 ≤ (predict_all m features).rainfall :=
  le_max_left 0 _

/-- C5: `recommend('rice', 28, 75)` classifies both temperature and humidity
as success and returns compatibility score 100.0. -/
theorem C5_rice_success :
    (get_crop_recommendations "rice" (some 28) (some 75)).1.map Recommendation.typ =
      ["success", "success"] ∧
    (get_crop_recommendations "rice" (some 28) (some 75)).2 = 100 := by
  have hreq : (crop_requirements "rice").getD rice_req = rice_req := by
    simp [crop_requirements]
  constructor
  · simp only [get_crop_recommendations, hreq, Option.getD_some, List.map_cons, List.map_nil]
    norm_num [rice_req, temp_recommendation, humidity_recommendation]
  · simp only [get_crop_recommendations, hreq, Option.getD_some]
    norm_num [rice_req, calculate_compatibility_score, npMean, pyRound, roundHalfEven]

theorem wheat_penalized_value :
    pyRound 1 ((max 0 (100 - |(28 : ℚ) - (12 + 25) / 2| * 10) +
                max 0 (100 - |(75 : ℚ) - (50 + 70) / 2| * 5)) / 2) = 15 := by
  have ha : |(28 : ℚ) - (12 + 25) / 2| = 19/2 := by
    rw [abs_of_nonneg (by norm_num)]
    norm_num
  have hb : |(75 : ℚ) - (50 + 70) / 2| = 15 := by
    rw [abs_of_nonneg (by norm_num)]
    norm_num
  have h1 : ((max 0 (100 - |(28 : ℚ) - (12 + 25) / 2| * 10) +
              max 0 (100 - |(75 : ℚ) - (50 + 70) / 2| * 5)) / 2) = 15 := by
    rw [ha, hb]
    rw [show (100 - (19:ℚ)/2 * 10) = 5 by norm_num, show (100 - (15:ℚ) * 5) = 25 by norm_num]
    rw [max_eq_right (by norm_num : (0:ℚ) ≤ 5), max_eq_right (by norm_num : (0:ℚ) ≤ 25)]
    norm_num
  rw [h1]
  norm_num [pyRound, roundHalfEven]

/-- C6: `recommend('wheat', 28, 75)` classifies temperature as critical
(28 > 25) and humidity as warning (75 > 70); the compatibility score is the
average of the two penalized component scores
`max(0, 100 - |value - midpoint| * penalty)` with penalty 10 for temperature
and 5 for humidity, rounded to 1 decimal place — numerically 15.0. -/
theorem C6_wheat_penalized :
    (get_crop_recommendations "wheat" (some 28) (some 75)).1.map Recommendation.typ =
      ["critical", "warning"] ∧
    (get_crop_recommendations "wheat" (some 28) (some 75)).2 =
      pyRound 1 ((max 0 (100 - |(28 : ℚ) - (12 + 25) / 2| * 10) +
                  max 0 (100 - |(75 : ℚ) - (50 + 70) / 2| * 5)) / 2) ∧
    (get_crop_recommendations "wheat" (some 28) (some 75)).2 = 15 := by
  have hreq : (crop_requirements "wheat").getD rice_req = wheat_req := by
    simp [crop_requirements]
  have hform : (get_crop_recommendations "wheat" (some 28) (some 75)).2 =
      pyRound 1 ((max 0 (100 - |(28 : ℚ) - (12 + 25) / 2| * 10) +
                  max 0 (100 - |(75 : ℚ) - (50 + 70) / 2| * 5)) / 2) := by
    simp only [get_crop_recommendations, hreq, Option.getD_some]
    norm_num [wheat_req, calculate_compatibility_score, npMean]
  refine ⟨?_, hform, hform.trans wheat_penalized_value⟩
  simp only [get_crop_recommendations, hreq, Option.getD_some, List.map_cons, List.map_nil]
  norm_num [wheat_req, temp_recommendation, humidity_recommendation]

/-- C7: any crop key outside the static table resolves to rice's
requirements without error, so the recommendations and the compatibility
score coincide with those computed for `'rice'` at the same inputs. -/
theorem C7_unknown_crop_fallback (crop_type : String)
    (h1 : crop_type ≠ "rice") (h2 : crop_type ≠ "wheat") (h3 : crop_type ≠ "cotton")
    (weather_temp weather_humidity : Option ℚ) :
    get_crop_recommendations crop_type weather_temp weather_humidity =
      get_crop_recommendations "rice" weather_temp weather_humidity := by
  simp [get_crop_recommendations, crop_requirements, h1, h2, h3]

/-- Witness for C7 at the concrete unknown key `"maize"`. -/
theorem C7_witness :
    get_crop_recommendations "maize" (some 28) (some 75) =
      get_crop_recommendations "rice" (some 28) (some 75) :=
  C7_unknown_crop_fallback "maize" (by decide) (by decide) (by decide) (some 28) (some 75)

/-- C8: feature extraction substitutes the documented defaults
(28, 75, 1013, wind 3 m/s) for missing fields rather than failing or
dropping them, converts wind speed to km/h by `* 3.6`, and always yields a
4-vector; with every field missing the vector is `[28, 75, 1013, 10.8]`. -/
theorem C8_feature_defaults :
    extract_features ⟨⟨none, none, none⟩, ⟨none⟩⟩ = [28, 75, 1013, 54/5] ∧
    (∀ t h p s : ℚ,
      extract_features ⟨⟨some t, some h, some p⟩, ⟨some s⟩⟩ = [t, h, p, s * (18/5)]) ∧
    (∀ cw : CurrentWeather, (extract_features cw).length = 4) := by
  refine ⟨by norm_num [extract_features], fun t h p s => rfl, fun cw => rfl⟩

/-- C9: the forecast loop samples exactly every 8th entry starting at index
0, stopping after the first 56 entries, so it runs `predict_all` on entries
`0, 8, 16, ...` and produces `min(7, ceil(len/8))` predictions. -/
theorem C9_forecast_sampling (st : WeatherMLModels) (l : List ForecastItem) :
    forecast_predictions st l =
      (List.range (min 7 ((l.length + 7) / 8))).filterMap
        (fun j => (l.get? (8 * j)).map (fun it => predict_all st (forecast_features it))) ∧
    (forecast_predictions st l).length = min 7 ((l.length + 7) / 8) := by
  have hmap : forecast_predictions st l =
      ((List.range (min 7 ((l.length + 7) / 8))).map (fun j => 8 * j)).filterMap
        (fun i => (l.get? i).map (fun it => predict_all st (forecast_features it))) := by
    rw [forecast_predictions, sampled_indices_eq]
  have hbound : ∀ j ∈ List.range (min 7 ((l.length + 7) / 8)), 8 * j < l.length := by
    intro j hj
    have := List.mem_range.mp hj
    omega
  constructor
  · rw [hmap, List.filterMap_map]
    rfl
  · rw [hmap, filterMap_get_length l _ _ _ hbound, List.length_range]

/-- C10: `calculate_compatibility_score` always lies between 0 and 100:
each component is 100 inside the range or clamped into `[0, 100]` by
`max(0, 100 - penalty)`, and the rounded average of two such values stays in
`[0, 100]`. -/
theorem C10_score_bounds (temp humidity : ℚ) (requirements : CropReq) :
    0 ≤ calculate_compatibility_score temp humidity requirements ∧
    calculate_compatibility_score temp humidity requirements ≤ 100 := by
  unfold calculate_compatibility_score
  set ts := if requirements.temp_lo ≤ temp ∧ temp ≤ requirements.temp_hi then (100 : ℚ)
    else max 0 (100 - |temp - npMean [requirements.temp_lo, requirements.temp_hi]| * 10) with hts
  set hs := if requirements.humidity_lo ≤ humidity ∧ humidity ≤ requirements.humidity_hi then (100 : ℚ)
    else max 0 (100 - |humidity - npMean [requirements.humidity_lo, requirements.humidity_hi]| * 5) with hhs
  have hts_bounds : 0 ≤ ts ∧ ts ≤ 100 := by
    rw [hts]
    split_ifs
    · norm_num
    · constructor
      · exact le_max_left 0 _
      · apply max_le (by norm_num)
        have : 0 ≤ |temp - npMean [requirements.temp_lo, requirements.temp_hi]| * 10 := by
          positivity
        linarith
  have hhs_bounds : 0 ≤ hs ∧ hs ≤ 100 := by
    rw [hhs]
    split_ifs
    · norm_num
    · constructor
      · exact le_max_left 0 _
      · apply max_le (by norm_num)
        have : 0 ≤ |humidity - npMean [requirements.humidity_lo, requirements.humidity_hi]| * 5 := by
          positivity
        linarith
  constructor
  · exact pyRound_nonneg 1 _ (by linarith [hts_bounds.1, hhs_bounds.1])
  · exact pyRound_one_le_hundred _ (by linarith [hts_bounds.2, hhs_bounds.2])
